import Mathlib

/-!
Shallow embedding of `mvt/android/modules/adb/sms.py` (the `SMS` Android
extraction module): data model, the two SQL queries, the row-normalization
loop of `SMS._parse_db`, the backup container decoder `SMS._extract_sms_adb`
(whose body begins, at line 144, with a bare non-comment statement, so every
invocation fails at entry), the archive decoder
`SMS._extract_sms_from_backup_tar`, and the orchestration in `SMS.run`.

External collaborators (`check_for_links`, `convert_timestamp_to_iso`,
`datetime.utcfromtimestamp`, the adb transport, `tarfile`, `zlib`, `json`)
are modelled at their interfaces: as function parameters, or as
oracle-provided outcome data for the stdlib decoders.
-/

set_option autoImplicit false

namespace MvtSms

/-- Exceptions that can propagate through the module, named after the Python
exception that the corresponding operation raises. -/
inductive PyErr where
  /-- `TypeError`, e.g. `check_for_links(None)` (re.findall on a non-string),
  or iterating `cur.description is None`. -/
  | typeError
  /-- `ValueError`, e.g. unpacking a short `split` result or `int()` on a
  non-numeric byte string. -/
  | valueError
  /-- `tarfile.ReadError` from `tarfile.open` on an invalid archive. -/
  | tarReadError
  /-- `zlib.error` from `zlib.decompress` on a non-DEFLATE member. -/
  | zlibError
  /-- `json.JSONDecodeError` from `json.loads` on malformed member JSON. -/
  | jsonError
  /-- the failure at `_extract_sms_adb`'s entry: its first statement,
  line 144, is the bare line `Run ADB command to create a backup of SMS app`
  (a comment missing its `#` marker).  It is not valid Python, so the module
  fails to import with a syntax error; under the most charitable dynamic
  reading the line would raise `NameError` before any other statement of the
  function runs. -/
  | bareStatementError
  /-- any other exception raised below `run`'s `try` block. -/
  | otherError
deriving DecidableEq, Repr

/-- ASCII/Unicode whitespace bytes stripped by Python `str.strip()` /
accepted around `int()` literals, restricted to the ASCII range used here. -/
def pyWsChar (c : Char) : Bool :=
  c = ' ' || c = '\t' || c = '\n' || c = '\r' || c = '\x0b' || c = '\x0c'

/-- Model of Python `str.strip()`: remove leading and trailing whitespace. -/
def pyStrip (s : String) : String :=
  ⟨((s.data.dropWhile pyWsChar).reverse.dropWhile pyWsChar).reverse⟩

/-- The retention test of both extraction paths, line
`if check_for_links(message["body"]) or message["body"].strip() == "":`.
`links` stands for the external `check_for_links` (a list of found URLs,
truthy iff non-empty). -/
def retain (links : String → List String) (b : String) : Bool :=
  !(links b).isEmpty || pyStrip b == ""

/-- A row as returned by either SQL query: columns `address`, `timestamp`,
`incoming`, `body`.  `body` is `Option String` because the SQLite column is
nullable (`p.text` / `body` may be NULL, surfaced to Python as `None`). -/
structure DbRow where
  address : String
  timestamp : Int
  incoming : Int
  body : Option String
deriving DecidableEq, Repr

/-- The message dict as appended to `self.results` by `SMS._parse_db`: the
query columns plus the derived `direction` and `isodate` keys. -/
structure SmsRecord where
  address : String
  timestamp : Int
  incoming : Int
  direction : String
  isodate : String
  body : String
deriving DecidableEq, Repr

/-- One loop body of `SMS._parse_db` for a row whose `body` is the string
`b`: `message["direction"] = ("received" if message["incoming"] == 1 else
"sent")`, `message["isodate"] = convert_timestamp_to_iso(message["timestamp"])`.
`toISO` stands for the external `convert_timestamp_to_iso`. -/
def mkRecord (toISO : Int → String) (r : DbRow) (b : String) : SmsRecord :=
  { address := r.address
    timestamp := r.timestamp
    incoming := r.incoming
    direction := if r.incoming = 1 then "received" else "sent"
    isodate := toISO r.timestamp
    body := b }

/-- The `for item in cur:` loop of `SMS._parse_db`, threading the mutable
`self.results` accumulator.  A row with a NULL `body` makes
`check_for_links(None)` raise `TypeError`, aborting the loop with the partial
accumulator (nothing is appended for that row). -/
def processRows (links : String → List String) (toISO : Int → String) :
    List DbRow → List SmsRecord → List SmsRecord × Option PyErr
  | [], acc => (acc, none)
  | r :: rs, acc =>
    match r.body with
    | none => (acc, some PyErr.typeError)
    | some b =>
        processRows links toISO rs
          (if retain links b then acc ++ [mkRecord toISO r b] else acc)

/-- Which of the two module-level query constants is executed. -/
inductive QueryId where
  /-- `SMS_BUGLE_QUERY` against `bugle_db` (ChatApp variant). -/
  | bugle
  /-- `SMS_MMSMS_QUERY` against `mmssms.db` (LegacyTelephony variant). -/
  | mmsms
deriving DecidableEq, Repr

/-- Outcome of one `SMS._parse_db` invocation: the final `self.results`,
which query (if any) was executed on the cursor, whether
`cur.close(); conn.close()` were reached, and the exception propagating out
of the call, if any. -/
structure ParseOutcome where
  results : List SmsRecord
  executed : Option QueryId
  connClosed : Bool
  err : Option PyErr
deriving Repr

/-- Body of `SMS._parse_db` once a query has been executed on the cursor:
run the row loop over the query's result set, and only after a fully
successful loop execute `cur.close()` and `conn.close()` — the source has no
try/finally, so an exception anywhere in the loop propagates before the
close calls.  `store` models the on-device SQLite database as a map from a
query to its result rows. -/
def parseWith (links : String → List String) (toISO : Int → String)
    (q : QueryId) (store : QueryId → List DbRow)
    (results : List SmsRecord) : ParseOutcome :=
  match processRows links toISO (store q) results with
  | (res, some e) => ⟨res, some q, false, some e⟩
  | (res, none) => ⟨res, some q, true, none⟩

/-- `SMS._parse_db` proper: the `if (self.SMS_DB_TYPE == 1) ... elif ...`
dispatch; with any other `SMS_DB_TYPE` no query is executed, so the
`cur.description` read raises before the loop. -/
def parse_db (links : String → List String) (toISO : Int → String) (t : Nat)
    (store : QueryId → List DbRow) (results : List SmsRecord) : ParseOutcome :=
  if t = 1 then parseWith links toISO QueryId.bugle store results
  else if t = 2 then parseWith links toISO QueryId.mmsms store results
  else ⟨results, none, false, some PyErr.typeError⟩

/-! ### The `SMS_BUGLE_QUERY` relational model

Rows of the five `bugle_db` tables named in the query.  Python/SQLite column
`_id` is rendered as `rid` (a leading underscore is not a usable Lean field
name); all other column names are kept. -/

/-- A `participants` row (columns used: `_id`, `contact_id`,
`normalized_destination`). -/
structure ParticipantRow where
  rid : Int
  contact_id : Int
  normalized_destination : String
deriving DecidableEq, Repr

/-- A `messages` row (columns used: `_id`, `conversation_id`, `sender_id`). -/
structure MessageRow where
  rid : Int
  conversation_id : Int
  sender_id : Int
deriving DecidableEq, Repr

/-- A `parts` row (columns used: `message_id`, `timestamp`, `text`). -/
structure PartRow where
  message_id : Int
  timestamp : Int
  text : Option String
deriving DecidableEq, Repr

/-- A `conversations` row (column used: `_id`). -/
structure ConversationRow where
  rid : Int
deriving DecidableEq, Repr

/-- A `conversation_participants` row (columns used: `conversation_id`,
`participant_id`). -/
structure ConvPartRow where
  conversation_id : Int
  participant_id : Int
deriving DecidableEq, Repr

/-- The `bugle_db` tables referenced by `SMS_BUGLE_QUERY`. -/
structure BugleDb where
  messages : List MessageRow
  conversations : List ConversationRow
  parts : List PartRow
  participants : List ParticipantRow
  conversation_participants : List ConvPartRow
deriving Repr

/-- The subselect `SELECT _id FROM participants WHERE contact_id=-1`:
the ids of the synthetic unknown-contact participant group. -/
def unknownGroupIds (db : BugleDb) : List Int :=
  (db.participants.filter (fun p => p.contact_id = -1)).map (fun p => p.rid)

/-- The SELECT list of `SMS_BUGLE_QUERY` for one joined row:
`ppl.normalized_destination AS address`, `p.timestamp AS timestamp`,
`CASE WHEN m.sender_id IN (SELECT _id FROM participants WHERE contact_id=-1)
THEN 2 ELSE 1 END incoming`, `p.text AS body`. -/
def bugleRow (db : BugleDb) (m : MessageRow) (p : PartRow)
    (ppl : ParticipantRow) : DbRow :=
  { address := ppl.normalized_destination
    timestamp := p.timestamp
    incoming := if m.sender_id ∈ unknownGroupIds db then 2 else 1
    body := p.text }

/-- `SMS_BUGLE_QUERY`: cross join of `messages m, conversations c, parts p,
participants ppl, conversation_participants cp` restricted by the WHERE
clause `(m.conversation_id = c._id) AND (m._id = p.message_id) AND
(cp.conversation_id = c._id) AND (cp.participant_id = ppl._id)`. -/
def bugleQuery (db : BugleDb) : List DbRow :=
  db.messages.flatMap fun m =>
    db.conversations.flatMap fun c =>
      db.parts.flatMap fun p =>
        db.participants.flatMap fun ppl =>
          db.conversation_participants.flatMap fun cp =>
            if m.conversation_id = c.rid ∧ m.rid = p.message_id ∧
                cp.conversation_id = c.rid ∧ cp.participant_id = ppl.rid
            then [bugleRow db m p ppl] else []

/-! ### The backup path: `_extract_sms_from_backup_tar` -/

/-- One message object of the JSON list inside an `_sms_backup` member, with
the fields the code reads: `date` (epoch milliseconds, already through
`int(...)`), `date_sent` (already through `int(...)`), `body`. -/
structure BackupMsg where
  date : Int
  date_sent : Int
  body : String
deriving DecidableEq, Repr

/-- The message dict as appended to `self.results` by
`_extract_sms_from_backup_tar`: the JSON fields plus the derived `isodate`
and `direction` keys. -/
structure BackupRecord where
  date : Int
  date_sent : Int
  isodate : String
  direction : String
  body : String
deriving DecidableEq, Repr

/-- One loop body of the `for message in json_data:` loop:
`utc_timestamp = datetime.datetime.utcfromtimestamp(int(message["date"]) / 1000)`,
`message["isodate"] = convert_timestamp_to_iso(utc_timestamp)`,
`message["direction"] = ("sent" if int(message["date_sent"]) else "received")`.
`toISOq` stands for the composition
`convert_timestamp_to_iso ∘ datetime.utcfromtimestamp` applied to the exact
quotient `date / 1000`. -/
def mkBackupRecord (toISOq : ℚ → String) (m : BackupMsg) : BackupRecord :=
  { date := m.date
    date_sent := m.date_sent
    isodate := toISOq ((m.date : ℚ) / 1000)
    direction := if m.date_sent ≠ 0 then "sent" else "received"
    body := m.body }

/-- The `for message in json_data:` loop, threading `self.results`. -/
def processBackupMsgs (links : String → List String) (toISOq : ℚ → String) :
    List BackupMsg → List BackupRecord → List BackupRecord
  | [], acc => acc
  | m :: ms, acc =>
      processBackupMsgs links toISOq ms
        (if retain links m.body then acc ++ [mkBackupRecord toISOq m] else acc)

/-- What `zlib.decompress` + `json.loads` yield for one tar member's bytes,
modelled as oracle data for the stdlib decoders. -/
inductive MemberContent where
  /-- `zlib.decompress` raises `zlib.error` (non-DEFLATE content). -/
  | badZlib
  /-- inflation succeeds but `json.loads` raises. -/
  | badJson
  /-- inflation and JSON parsing succeed, yielding a message list. -/
  | msgs (l : List BackupMsg)
deriving Repr

/-- One member of the backup tar archive. -/
structure TarMember where
  name : String
  content : MemberContent
deriving Repr

/-- What `tarfile.open` + `getmembers` yield for the payload bytes. -/
inductive TarData where
  /-- `tarfile.open` raises `tarfile.ReadError` (invalid archive). -/
  | invalid
  /-- a valid archive with the given members. -/
  | members (ms : List TarMember)
deriving Repr

/-- The member loop of `_extract_sms_from_backup_tar`: members whose name
does not end in `_sms_backup` are skipped; a retained member is inflated and
JSON-parsed (either step raising aborts the whole decode, nothing is caught),
then its messages run through the normalization/filter loop. -/
def processMembers (links : String → List String) (toISOq : ℚ → String) :
    List TarMember → List BackupRecord → List BackupRecord × Option PyErr
  | [], acc => (acc, none)
  | mem :: ms, acc =>
      if mem.name.endsWith "_sms_backup" then
        match mem.content with
        | MemberContent.badZlib => (acc, some PyErr.zlibError)
        | MemberContent.badJson => (acc, some PyErr.jsonError)
        | MemberContent.msgs l =>
            processMembers links toISOq ms (processBackupMsgs links toISOq l acc)
      else processMembers links toISOq ms acc

/-- `SMS._extract_sms_from_backup_tar`: open the tar (an invalid archive
raises out of the call), then run the member loop. -/
def extract_sms_from_backup_tar (links : String → List String)
    (toISOq : ℚ → String) (td : TarData) (acc : List BackupRecord) :
    List BackupRecord × Option PyErr :=
  match td with
  | TarData.invalid => (acc, some PyErr.tarReadError)
  | TarData.members ms => processMembers links toISOq ms acc

/-! ### The backup container decoder: `_extract_sms_adb`

The decoded `bu backup` output is a byte string, modelled as `List Nat`. -/

/-- Bytes of an ASCII string literal. -/
def asciiBytes (s : String) : List Nat :=
  s.data.map Char.toNat

/-- The magic header literal `b"ANDROID BACKUP"`. -/
def magicBytes : List Nat :=
  asciiBytes "ANDROID BACKUP"

/-- `bytes.startswith`. -/
def listPrefixOf : List Nat → List Nat → Bool
  | [], _ => true
  | _ :: _, [] => false
  | a :: as, b :: bs => if a = b then listPrefixOf as bs else false

/-- Split off everything up to the first occurrence of `sep`, or `none` if
`sep` does not occur. -/
def splitOnce (sep : Nat) : List Nat → Option (List Nat × List Nat)
  | [] => none
  | b :: bs =>
      if b = sep then some ([], bs)
      else
        match splitOnce sep bs with
        | none => none
        | some (pre, post) => some (b :: pre, post)

/-- Python `bytes.split(sep, maxsplit)`: at most `n` splits, the remainder
(which may contain further separators) is the last part. -/
def pySplitN (sep : Nat) : Nat → List Nat → List (List Nat)
  | 0, bs => [bs]
  | n + 1, bs =>
      match splitOnce sep bs with
      | none => [bs]
      | some (pre, post) => pre :: pySplitN sep n post

/-- Vocabulary of outcomes for `SMS._extract_sms_adb`.  The function's first
statement (line 144) is the bare line
`Run ADB command to create a backup of SMS app` with no comment marker, so
`bareStatement` is the only outcome any invocation can produce; the
remaining constructors name the outcomes the header-validation code on
lines 150-158 speaks of, which is unreachable as written. -/
inductive AdbOutcome where
  /-- the unconditional failure at the function's entry (line 144: the
  module does not even parse as Python). -/
  | bareStatement
  /-- magic check failed: log "No valid backup data found." and return
  (unreachable). -/
  | noValidData
  /-- `split(b"\n", 4)` yielded fewer than five parts, so the five-name
  unpacking assignment raises `ValueError` (unreachable). -/
  | unpackError
  /-- `int(is_compressed)` raises `ValueError` (unreachable). -/
  | intParseError
  /-- `encryption != b"none" or int(is_compressed)` held: log "encrypted or
  compressed" and return with nothing appended (unreachable). -/
  | rejectedUnsupported
  /-- validation passed: `tar_data` handed to
  `_extract_sms_from_backup_tar` (unreachable). -/
  | proceed (tarData : List Nat)
deriving DecidableEq, Repr

/-- The unpacking assignment `[magic_header, version, is_compressed,
encryption, tar_data] = backup_output.split(b"\n", 4)` of line 150, read as
a property of the byte stream (used to exhibit concrete streams whose
header fields have a given shape). -/
def splitHeader (bs : List Nat) :
    Option (List Nat × List Nat × List Nat × List Nat × List Nat) :=
  match pySplitN 10 4 bs with
  | [mh, ver, isC, enc, tarData] => some (mh, ver, isC, enc, tarData)
  | _ => none

/-- `SMS._extract_sms_adb`: its body begins, at line 144, with the bare
statement `Run ADB command to create a backup of SMS app` — not valid
Python.  Every invocation therefore fails unconditionally at entry, before
the operator warning, the `bu backup` command, the magic-header check or any
header-field validation; no byte stream is ever inspected. -/
def extract_sms_adb (_bs : List Nat) : AdbOutcome :=
  AdbOutcome.bareStatement

/-! ### Orchestration: `SMS.run` -/

/-- Outcome of `self._adb_process_file(path, self._parse_db)`: either the
file was pulled and `_parse_db` ran against it (`copied`, carrying the
store's response to each query), or the adb layer raised
`InsufficientPrivileges`, or it raised some other exception. -/
inductive CopyOutcome where
  | copied (store : QueryId → List DbRow)
  | insufficientPrivileges
  | fails

/-- The external world as seen by one `SMS.run` invocation. -/
structure RunEnv where
  /-- `_adb_check_file_exists("/" + SMS_BUGLE_PATH)`. -/
  bugleExists : Bool
  /-- `_adb_check_file_exists("/" + SMS_MMSSMS_PATH)`. -/
  mmssmsExists : Bool
  /-- outcome of `_adb_process_file` on the probed path. -/
  copyOutcome : CopyOutcome
  /-- `base64.b64decode` of the `bu backup` command output. -/
  backupOutput : List Nat
  /-- what `tarfile` yields for given payload bytes. -/
  tarOf : List Nat → TarData
  /-- external `check_for_links`. -/
  links : String → List String
  /-- external `convert_timestamp_to_iso` on a raw row timestamp. -/
  toISO : Int → String
  /-- external `convert_timestamp_to_iso ∘ utcfromtimestamp` on exact
  seconds. -/
  toISOq : ℚ → String

/-- Result of `SMS.run`: the final `SMS_DB_TYPE` attribute (if assigned),
which query the direct path executed, whether `_parse_db` reached its close
calls, the two accumulators, whether `_extract_sms_adb` was invoked, and the
exception escaping `run`, if any. -/
structure RunResult where
  dbType : Option Nat
  executed : Option QueryId
  connClosed : Option Bool
  results : List SmsRecord
  brecords : List BackupRecord
  backupAttempted : Bool
  escaped : Option PyErr
deriving Repr

/-- The fallback tail of `SMS.run`: `self.log.warn(...)` executes, then
`self._extract_sms_adb()` is invoked and fails unconditionally at its first
statement (line 144); nothing is caught there, so the error escapes `run`
with both accumulators untouched. -/
def runBackup (_env : RunEnv) (dbType : Option Nat) (results : List SmsRecord)
    (brecords : List BackupRecord) : RunResult :=
  ⟨dbType, none, none, results, brecords, true, some PyErr.bareStatementError⟩

/-- `SMS.run`: probe the bugle path, else the mmssms path (setting
`SMS_DB_TYPE` to 1 resp. 2 before processing); if neither exists, `return`
without attempting the backup path.  Only `InsufficientPrivileges` is
caught; it routes to the backup tail.  Any other exception from the direct
path — and any decode error from the backup tail — escapes `run`. -/
def run (env : RunEnv) (results : List SmsRecord)
    (brecords : List BackupRecord) : RunResult :=
  if env.bugleExists then
    match env.copyOutcome with
    | CopyOutcome.copied store =>
        let p := parse_db env.links env.toISO 1 store results
        ⟨some 1, p.executed, some p.connClosed, p.results, brecords, false, p.err⟩
    | CopyOutcome.insufficientPrivileges => runBackup env (some 1) results brecords
    | CopyOutcome.fails =>
        ⟨some 1, none, none, results, brecords, false, some PyErr.otherError⟩
  else if env.mmssmsExists then
    match env.copyOutcome with
    | CopyOutcome.copied store =>
        let p := parse_db env.links env.toISO 2 store results
        ⟨some 2, p.executed, some p.connClosed, p.results, brecords, false, p.err⟩
    | CopyOutcome.insufficientPrivileges => runBackup env (some 2) results brecords
    | CopyOutcome.fails =>
        ⟨some 2, none, none, results, brecords, false, some PyErr.otherError⟩
  else ⟨none, none, none, results, brecords, false, none⟩

/-! ### The shared default accumulator scenario

`SMS.__init__` has the default parameter `results=[]`; the default object is
created once at definition time, so every instance constructed with default
arguments aliases the same list, which `_parse_db` mutates in place.  Hence
a second default-constructed instance starts its run with the first run's
records already in `self.results`. -/

/-- Final `self.results` of the first default-constructed instance after one
`_parse_db` run (the shared default list starts empty). -/
def firstRunResults (links : String → List String) (toISO : Int → String)
    (t : Nat) (store : QueryId → List DbRow) : List SmsRecord :=
  (parse_db links toISO t store []).results

/-- Final `self.results` of the second default-constructed instance after
its own `_parse_db` run over the same store: it starts from the shared list
as the first run left it. -/
def secondRunResults (links : String → List String) (toISO : Int → String)
    (t : Nat) (store : QueryId → List DbRow) : List SmsRecord :=
  (parse_db links toISO t store (firstRunResults links toISO t store)).results

/-! ### Concrete instances used by counterexamples and witnesses -/

/-- A concrete stand-in for `check_for_links`: detects exactly the string
"http://x". -/
def links0 : String → List String :=
  fun s => if s = "http://x" then ["http://x"] else []

/-- A concrete stand-in for `convert_timestamp_to_iso`. -/
def toISO0 : Int → String := fun _ => ""

/-- A concrete stand-in for the seconds-based timestamp conversion. -/
def toISOq0 : ℚ → String := fun _ => ""

/-- A row with a whitespace-free empty body (retained by the filter). -/
def rowEmptyBody : DbRow := ⟨"+15551234567", 5, 1, some ""⟩

/-- A row whose `body` column is NULL. -/
def rowNullBody : DbRow := ⟨"+15551234567", 0, 1, none⟩

/-- A one-row result set with an empty body. -/
def rowsOne : List DbRow := [rowEmptyBody]

/-- A store answering every query with the single empty-body row. -/
def storeOne : QueryId → List DbRow := fun _ => [rowEmptyBody]

/-- A store answering every query with the single NULL-body row. -/
def storeNull : QueryId → List DbRow := fun _ => [rowNullBody]

/-- A store answering every query with no rows. -/
def storeEmpty : QueryId → List DbRow := fun _ => []

/-- The record `_parse_db` builds from `rowEmptyBody`. -/
def recEmpty : SmsRecord := mkRecord toISO0 rowEmptyBody ""

/-- A `bugle_db` instance with one conversation, one part and one message
whose sender (participant 7) has `contact_id = -1`, i.e. participates in the
synthetic unknown-contact group; the part's text is empty so the row passes
the retention filter. -/
def db0 : BugleDb :=
  { messages := [⟨1, 1, 7⟩]
    conversations := [⟨1⟩]
    parts := [⟨1, 1700000000000, some ""⟩]
    participants := [⟨7, -1, "+15551234567"⟩]
    conversation_participants := [⟨1, 7⟩] }

/-- One backup message: sent flag set, empty body (retained). -/
def msgs0 : List BackupMsg := [⟨2000, 3, ""⟩]

/-- The record the backup loop builds from `msgs0`. -/
def brec0 : BackupRecord := mkBackupRecord toISOq0 ⟨2000, 3, ""⟩

/-- A backup stream that passes the magic check, splits into exactly five
header fields and carries `encryption = aes`: otherwise entirely
well-formed, it is exactly the shape the container-validation claim speaks
of. -/
def bsAes : List Nat := asciiBytes "ANDROID BACKUP\n1\n0\naes\nTAR"

/-- An environment where the bugle store path exists and the direct path is
privilege-blocked, so `run` enters the backup fallback; `bsAes` is what the
`bu backup` transport would deliver. -/
def envPriv : RunEnv :=
  ⟨true, false, CopyOutcome.insufficientPrivileges, bsAes,
    fun _ => TarData.members [], links0, toISO0, toISOq0⟩

/-- An environment where both store paths exist and the bugle file is pulled
successfully, with an empty result set. -/
def envCopied : RunEnv :=
  ⟨true, true, CopyOutcome.copied storeEmpty, [],
    fun _ => TarData.members [], links0, toISO0, toISOq0⟩

/-! ## Helper lemmas -/

/-- The row loop only ever appends to its accumulator: running it from `acc`
yields `acc` followed by what a run from the empty accumulator yields, and
the error outcome does not depend on the accumulator. -/
theorem processRows_acc (links : String → List String) (toISO : Int → String)
    (rows : List DbRow) :
    ∀ acc : List SmsRecord,
      processRows links toISO rows acc =
        (acc ++ (processRows links toISO rows []).1,
          (processRows links toISO rows []).2) := by
  induction rows with
  | nil => intro acc; simp [processRows]
  | cons r rs ih =>
    intro acc
    cases hb : r.body with
    | none => simp [processRows, hb]
    | some b =>
      simp only [processRows, hb]
      rw [ih (if retain links b then acc ++ [mkRecord toISO r b] else acc),
        ih (if retain links b then [] ++ [mkRecord toISO r b] else [])]
      by_cases hr : retain links b <;> simp [hr]

/-- If every row's `body` column is non-NULL, the row loop completes without
raising. -/
theorem processRows_total (links : String → List String) (toISO : Int → String)
    (rows : List DbRow) :
    ∀ acc : List SmsRecord, (∀ r ∈ rows, r.body ≠ none) →
      (processRows links toISO rows acc).2 = none := by
  induction rows with
  | nil => intro acc _; simp [processRows]
  | cons r rs ih =>
    intro acc h
    cases hb : r.body with
    | none => exact absurd hb (h r (List.mem_cons_self r rs))
    | some b =>
      simp only [processRows, hb]
      exact ih _ (fun x hx => h x (List.mem_cons_of_mem r hx))

/-- Every record in the row loop's output either was already in the
accumulator or passes the retention filter. -/
theorem processRows_mem_retain (links : String → List String)
    (toISO : Int → String) (rows : List DbRow) :
    ∀ acc : List SmsRecord, (∀ x ∈ acc, retain links x.body = true) →
      ∀ x ∈ (processRows links toISO rows acc).1, retain links x.body = true := by
  induction rows with
  | nil => intro acc hacc; simpa [processRows] using hacc
  | cons r rs ih =>
    intro acc hacc
    cases hb : r.body with
    | none => simpa [processRows, hb] using hacc
    | some b =>
      simp only [processRows, hb]
      apply ih
      by_cases hr : retain links b
      · intro x hx
        have hx' : x ∈ acc ∨ x = mkRecord toISO r b := by simpa [hr] using hx
        rcases hx' with hx' | rfl
        · exact hacc x hx'
        · simpa [mkRecord] using hr
      · simpa [hr] using hacc

/-- Every record in the backup message loop's output either was already in
the accumulator or passes the retention filter. -/
theorem processBackupMsgs_mem_retain (links : String → List String)
    (toISOq : ℚ → String) (ms : List BackupMsg) :
    ∀ acc : List BackupRecord, (∀ x ∈ acc, retain links x.body = true) →
      ∀ x ∈ processBackupMsgs links toISOq ms acc,
        retain links x.body = true := by
  induction ms with
  | nil => intro acc hacc; simpa [processBackupMsgs] using hacc
  | cons m rest ih =>
    intro acc hacc
    simp only [processBackupMsgs]
    apply ih
    by_cases hr : retain links m.body
    · intro x hx
      have hx' : x ∈ acc ∨ x = mkBackupRecord toISOq m := by simpa [hr] using hx
      rcases hx' with hx' | rfl
      · exact hacc x hx'
      · simpa [mkBackupRecord] using hr
    · simpa [hr] using hacc

/-- The normalization invariant of the backup loop: every record in its
output that was not already in the accumulator has `isodate` computed from
`date / 1000` and `direction` from the truthiness of `date_sent`. -/
theorem processBackupMsgs_mem_norm (links : String → List String)
    (toISOq : ℚ → String) (ms : List BackupMsg) :
    ∀ acc : List BackupRecord,
      (∀ x ∈ acc, x.isodate = toISOq ((x.date : ℚ) / 1000) ∧
        x.direction = (if x.date_sent ≠ 0 then "sent" else "received")) →
      ∀ x ∈ processBackupMsgs links toISOq ms acc,
        x.isodate = toISOq ((x.date : ℚ) / 1000) ∧
          x.direction = (if x.date_sent ≠ 0 then "sent" else "received") := by
  induction ms with
  | nil => intro acc hacc; simpa [processBackupMsgs] using hacc
  | cons m rest ih =>
    intro acc hacc
    simp only [processBackupMsgs]
    apply ih
    by_cases hr : retain links m.body
    · intro x hx
      have hx' : x ∈ acc ∨ x = mkBackupRecord toISOq m := by simpa [hr] using hx
      rcases hx' with hx' | rfl
      · exact hacc x hx'
      · simp [mkBackupRecord]
    · simpa [hr] using hacc

/-- The `results` field of `parseWith` is the row loop's accumulator. -/
theorem parseWith_results (links : String → List String) (toISO : Int → String)
    (q : QueryId) (store : QueryId → List DbRow) (results : List SmsRecord) :
    (parseWith links toISO q store results).results =
      (processRows links toISO (store q) results).1 := by
  rcases hpr : processRows links toISO (store q) results with ⟨res, e⟩
  cases e <;> simp [parseWith, hpr]

/-- `parseWith` records which query it executed. -/
theorem parseWith_executed (links : String → List String) (toISO : Int → String)
    (q : QueryId) (store : QueryId → List DbRow) (results : List SmsRecord) :
    (parseWith links toISO q store results).executed = some q := by
  rcases hpr : processRows links toISO (store q) results with ⟨res, e⟩
  cases e <;> simp [parseWith, hpr]

/-- `parseWith` reaches its close calls exactly when the loop did not
raise. -/
theorem parseWith_connClosed (links : String → List String)
    (toISO : Int → String) (q : QueryId) (store : QueryId → List DbRow)
    (results : List SmsRecord) :
    ((parseWith links toISO q store results).connClosed = true ↔
      (parseWith links toISO q store results).err = none) := by
  rcases hpr : processRows links toISO (store q) results with ⟨res, e⟩
  cases e <;> simp [parseWith, hpr]

/-- `_parse_db` only appends: its final result list is its initial one
followed by what a run from an empty list would produce. -/
theorem parse_db_results (links : String → List String) (toISO : Int → String)
    (t : Nat) (store : QueryId → List DbRow) (results : List SmsRecord) :
    (parse_db links toISO t store results).results =
      results ++ (parse_db links toISO t store []).results := by
  unfold parse_db
  split
  · rw [parseWith_results, parseWith_results,
      processRows_acc links toISO (store QueryId.bugle) results]
  · split
    · rw [parseWith_results, parseWith_results,
        processRows_acc links toISO (store QueryId.mmsms) results]
    · simp

/-! ## Claim theorems -/

/-- C1: in both extraction paths, a processed row's record is appended to
the result set iff the link detector finds a link in its body or the body
trims to the empty string; consequently every record in a result set built
from the empty accumulator passes the retention filter, so no non-empty,
link-free body ever appears. -/
theorem C1_retention_filter :
    (∀ (links : String → List String) (toISO : Int → String) (r : DbRow)
        (b : String) (rs : List DbRow) (acc : List SmsRecord),
        r.body = some b →
        processRows links toISO (r :: rs) acc =
          processRows links toISO rs
            (if retain links b then acc ++ [mkRecord toISO r b] else acc)) ∧
    (∀ (links : String → List String) (toISO : Int → String)
        (rows : List DbRow) (x : SmsRecord),
        x ∈ (processRows links toISO rows []).1 → retain links x.body = true) ∧
    (∀ (links : String → List String) (toISOq : ℚ → String) (m : BackupMsg)
        (ms : List BackupMsg) (acc : List BackupRecord),
        processBackupMsgs links toISOq (m :: ms) acc =
          processBackupMsgs links toISOq ms
            (if retain links m.body then acc ++ [mkBackupRecord toISOq m]
             else acc)) ∧
    (∀ (links : String → List String) (toISOq : ℚ → String)
        (ms : List BackupMsg) (x : BackupRecord),
        x ∈ processBackupMsgs links toISOq ms [] →
        retain links x.body = true) := by
  refine ⟨?_, ?_, ?_, ?_⟩
  · intro links toISO r b rs acc hb
    simp [processRows, hb]
  · intro links toISO rows x hx
    exact processRows_mem_retain links toISO rows [] (by simp) x hx
  · intro links toISOq m ms acc
    simp [processBackupMsgs]
  · intro links toISOq ms x hx
    exact processBackupMsgs_mem_retain links toISOq ms [] (by simp) x hx

/-- Witness for C1 at a concrete input: the record built from the empty-body
row is in the result set, so the theorem yields that its body passes the
retention filter. -/
theorem C1_retention_filter_witness : retain links0 "" = true :=
  C1_retention_filter.2.1 links0 toISO0 rowsOne recEmpty (by decide)

/-- C10: the direct-path row loop is total when every row's `body` is a
string, and on the first row whose `body` is NULL it raises `TypeError`
(from `check_for_links(None)`) instead of either discarding or retaining
the row. -/
theorem C10_null_body :
    (∀ (links : String → List String) (toISO : Int → String)
        (rows : List DbRow) (acc : List SmsRecord),
        (∀ r ∈ rows, r.body ≠ none) →
        (processRows links toISO rows acc).2 = none) ∧
    (∀ (links : String → List String) (toISO : Int → String) (r : DbRow)
        (rs : List DbRow) (acc : List SmsRecord),
        r.body = none →
        processRows links toISO (r :: rs) acc =
          (acc, some PyErr.typeError)) := by
  constructor
  · intro links toISO rows acc h
    exact processRows_total links toISO rows acc h
  · intro links toISO r rs acc h
    simp [processRows, h]

/-- Witness for C10: a one-row result set with a NULL body raises
immediately, appending nothing. -/
theorem C10_null_body_witness :
    processRows links0 toISO0 [rowNullBody] [] = ([], some PyErr.typeError) :=
  C10_null_body.2 links0 toISO0 rowNullBody [] [] rfl

/-- C7: every record the backup loop appends has `isodate` computed from
`date / 1000` (milliseconds to seconds, before the ISO conversion) and
`direction = sent` exactly when `date_sent` is truthy as an integer,
otherwise `received`. -/
theorem C7_backup_normalization (links : String → List String)
    (toISOq : ℚ → String) (ms : List BackupMsg) (x : BackupRecord)
    (hx : x ∈ processBackupMsgs links toISOq ms []) :
    x.isodate = toISOq ((x.date : ℚ) / 1000) ∧
    x.direction = (if x.date_sent ≠ 0 then "sent" else "received") :=
  processBackupMsgs_mem_norm links toISOq ms [] (by simp) x hx

/-- Witness for C7 at a concrete backup message. -/
theorem C7_backup_normalization_witness :
    brec0.isodate = toISOq0 ((brec0.date : ℚ) / 1000) ∧
    brec0.direction = (if brec0.date_sent ≠ 0 then "sent" else "received") :=
  C7_backup_normalization links0 toISOq0 msgs0 brec0 (by decide)

/-- C2 counterexample: in `db0` the sole message's sender (participant 7)
participates in the `contact_id = -1` group, yet the record `_parse_db`
produces from the bugle query has `direction = "sent"`, not `"received"` —
the CASE marks such senders with `incoming = 2` and only `incoming == 1`
maps to `received`. -/
theorem C2_counterexample :
    db0.messages.map MessageRow.sender_id = [7] ∧
    (7 : Int) ∈ unknownGroupIds db0 ∧
    (processRows links0 toISO0 (bugleQuery db0) []).1.map SmsRecord.direction
      = ["sent"] := by
  decide

/-- C2 amended: for every joined `bugle_db` row satisfying the query's WHERE
clause whose message sender participates in the synthetic unknown-contact
group, the query emits the row with `incoming = 2` and the produced record
has `direction = "sent"` (not `"received"` as the claim states). -/
theorem C2_unknown_sender_direction (db : BugleDb) (toISO : Int → String)
    (b : String) (m : MessageRow) (c : ConversationRow) (p : PartRow)
    (ppl : ParticipantRow) (cp : ConvPartRow)
    (hm : m ∈ db.messages) (hc : c ∈ db.conversations) (hp : p ∈ db.parts)
    (hppl : ppl ∈ db.participants)
    (hcp : cp ∈ db.conversation_participants)
    (h1 : m.conversation_id = c.rid) (h2 : m.rid = p.message_id)
    (h3 : cp.conversation_id = c.rid) (h4 : cp.participant_id = ppl.rid)
    (hs : m.sender_id ∈ unknownGroupIds db) :
    bugleRow db m p ppl ∈ bugleQuery db ∧
    (bugleRow db m p ppl).incoming = 2 ∧
    (mkRecord toISO (bugleRow db m p ppl) b).direction = "sent" := by
  refine ⟨?_, ?_, ?_⟩
  · unfold bugleQuery
    refine List.mem_flatMap.mpr ⟨m, hm, ?_⟩
    refine List.mem_flatMap.mpr ⟨c, hc, ?_⟩
    refine List.mem_flatMap.mpr ⟨p, hp, ?_⟩
    refine List.mem_flatMap.mpr ⟨ppl, hppl, ?_⟩
    refine List.mem_flatMap.mpr ⟨cp, hcp, ?_⟩
    simp [h1, h2, h3, h4]
  · simp [bugleRow, hs]
  · simp [mkRecord, bugleRow, hs]

/-- Witness for the amended C2 at the concrete `db0`. -/
theorem C2_unknown_sender_direction_witness :
    bugleRow db0 ⟨1, 1, 7⟩ ⟨1, 1700000000000, some ""⟩
        ⟨7, -1, "+15551234567"⟩ ∈ bugleQuery db0 ∧
    (bugleRow db0 ⟨1, 1, 7⟩ ⟨1, 1700000000000, some ""⟩
        ⟨7, -1, "+15551234567"⟩).incoming = 2 ∧
    (mkRecord toISO0 (bugleRow db0 ⟨1, 1, 7⟩ ⟨1, 1700000000000, some ""⟩
        ⟨7, -1, "+15551234567"⟩) "").direction = "sent" :=
  C2_unknown_sender_direction db0 toISO0 "" ⟨1, 1, 7⟩ ⟨1⟩
    ⟨1, 1700000000000, some ""⟩ ⟨7, -1, "+15551234567"⟩ ⟨1, 7⟩
    (by decide) (by decide) (by decide) (by decide) (by decide)
    rfl rfl rfl rfl (by decide)


/-- C5 counterexample: with the shared mutable default accumulator
(`results=[]` in `SMS.__init__`), running the extraction twice over the same
one-row store via two default-constructed instances does not yield identical
output: the second run's result list contains the record twice. -/
theorem C5_counterexample :
    secondRunResults links0 toISO0 1 storeOne ≠
      firstRunResults links0 toISO0 1 storeOne ∧
    firstRunResults links0 toISO0 1 storeOne = [recEmpty] ∧
    secondRunResults links0 toISO0 1 storeOne = [recEmpty, recEmpty] := by
  decide

/-- C5 amended: because the default `results=[]` list is created once and
shared by every default-constructed instance, the second instance's run over
the same fixed rows yields the first run's output followed by a second copy
of it; the two outputs are identical only when the first run retained
nothing. -/
theorem C5_shared_accumulator (links : String → List String)
    (toISO : Int → String) (t : Nat) (store : QueryId → List DbRow) :
    secondRunResults links toISO t store =
      firstRunResults links toISO t store ++
        firstRunResults links toISO t store := by
  unfold secondRunResults firstRunResults
  exact parse_db_results links toISO t store _

/-- C9 counterexample: on a store whose single row has a NULL body, the row
loop raises and `_parse_db` propagates the error without reaching
`cur.close()` / `conn.close()` — the connection is not closed on this
failure path. -/
theorem C9_counterexample :
    (parse_db links0 toISO0 1 storeNull []).err = some PyErr.typeError ∧
    (parse_db links0 toISO0 1 storeNull []).connClosed = false := by
  decide

/-- C9 amended: `_parse_db` closes the store connection exactly on the
runs in which no error was raised; when the query dispatch, row iteration or
per-row normalization raises, the exception propagates with the connection
left open. -/
theorem C9_conn_close (links : String → List String) (toISO : Int → String)
    (t : Nat) (store : QueryId → List DbRow) (results : List SmsRecord) :
    ((parse_db links toISO t store results).connClosed = true ↔
      (parse_db links toISO t store results).err = none) := by
  unfold parse_db
  by_cases h1 : t = 1
  · simp only [h1, if_pos]
    exact parseWith_connClosed links toISO QueryId.bugle store results
  · by_cases h2 : t = 2
    · simp only [h1, h2, if_neg, if_pos]
      exact parseWith_connClosed links toISO QueryId.mmsms store results
    · simp [h1, h2]

/-- C4 counterexample: a backup stream that passes the magic check, splits
into exactly five header fields and has `encryption = aes` (not `none`) is
never rejected with a log-and-return: the decoder fails at its first
statement — line 144 is a bare non-comment line — so the invocation raises
instead of returning, and through `run`'s fallback the error escapes with
zero records appended.  (The same holds for every stream: the validation
code is unreachable.) -/
theorem C4_counterexample :
    listPrefixOf magicBytes bsAes = true ∧
    splitHeader bsAes = some (asciiBytes "ANDROID BACKUP", asciiBytes "1",
      asciiBytes "0", asciiBytes "aes", asciiBytes "TAR") ∧
    asciiBytes "aes" ≠ asciiBytes "none" ∧
    extract_sms_adb bsAes = AdbOutcome.bareStatement ∧
    AdbOutcome.bareStatement ≠ AdbOutcome.rejectedUnsupported ∧
    (runBackup envPriv (some 1) [] []).escaped =
      some PyErr.bareStatementError := by
  decide

/-- C4 amended: the backup decoder never performs its container validation.
Line 144 — the bare statement `Run ADB command to create a backup of SMS
app` — makes every invocation of `_extract_sms_adb` fail at entry (the
module is not even importable Python), before the magic check or any header
field is read; so no stream, whatever its `encryption` or `isCompressed`
fields, is ever rejected with a clean log-and-return (nor accepted): the
call raises, with zero records appended to either accumulator. -/
theorem C4_decoder_entry_failure :
    (∀ bs : List Nat, extract_sms_adb bs = AdbOutcome.bareStatement) ∧
    (∀ (env : RunEnv) (dbt : Option Nat) (results : List SmsRecord)
        (brecords : List BackupRecord),
      (runBackup env dbt results brecords).escaped =
          some PyErr.bareStatementError ∧
      (runBackup env dbt results brecords).brecords = brecords ∧
      (runBackup env dbt results brecords).results = results) :=
  ⟨fun _ => rfl, fun _ _ _ _ => ⟨rfl, rfl, rfl⟩⟩

/-- C6: the claim describes the clear intent (catch the privilege error,
fall back to backup extraction without failing the run) and the code has a
slip: `run` does catch `InsufficientPrivileges` and then invokes
`_extract_sms_adb`, but that call fails unconditionally at the function's
first statement — line 144 is the comment `Run ADB command to create a
backup of SMS app` missing its `#` marker — so the run fails instead of
performing any backup extraction.  This theorem evaluates the model at the
failing input: bugle path present, direct access privilege-blocked. -/
theorem C6_fallback_raises :
    (run envPriv [] []).backupAttempted = true ∧
    (run envPriv [] []).escaped = some PyErr.bareStatementError := by
  decide


/-- C8: when the pulled store is parsed, the schema variant is fixed by
probing the bugle path first (`SMS_DB_TYPE = 1` and only `SMS_BUGLE_QUERY`
executed whenever the bugle path exists, regardless of the mmssms path), the
mmssms path only if the bugle path is absent (`SMS_DB_TYPE = 2`, only
`SMS_MMSMS_QUERY` executed), and with neither path present no variant is set,
no query runs and the backup path is not attempted. -/
theorem C8_schema_probe (env : RunEnv) (results : List SmsRecord)
    (brecords : List BackupRecord) (store : QueryId → List DbRow)
    (h : env.copyOutcome = CopyOutcome.copied store) :
    (env.bugleExists = true →
      (run env results brecords).dbType = some 1 ∧
      (run env results brecords).executed = some QueryId.bugle) ∧
    (env.bugleExists = false → env.mmssmsExists = true →
      (run env results brecords).dbType = some 2 ∧
      (run env results brecords).executed = some QueryId.mmsms) ∧
    (env.bugleExists = false → env.mmssmsExists = false →
      (run env results brecords).dbType = none ∧
      (run env results brecords).executed = none ∧
      (run env results brecords).backupAttempted = false) := by
  refine ⟨?_, ?_, ?_⟩
  · intro hb
    rw [run, if_pos hb, h]
    simp [parse_db, parseWith_executed]
  · intro hb hmm
    rw [run, if_neg (by simp [hb]), if_pos hmm, h]
    simp [parse_db, parseWith_executed]
  · intro hb hmm
    rw [run, if_neg (by simp [hb]), if_neg (by simp [hmm])]
    exact ⟨rfl, rfl, rfl⟩

/-- Witness for C8: with the bugle path present, the variant is 1 and the
bugle query is the one executed. -/
theorem C8_schema_probe_witness :
    (run envCopied [] []).dbType = some 1 ∧
    (run envCopied [] []).executed = some QueryId.bugle :=
  (C8_schema_probe envCopied [] [] storeEmpty rfl).1 rfl

end MvtSms
